import Mathlib

/-!
Verification of the MXU instance-lifecycle bridge (src-tauri/src/maa_commands.rs).

The Rust commands are embedded shallowly: native handles become `Nat`
identifiers, every native-library invocation is recorded as a `NativeEvent`
in an output trace, results of native calls (created handles, returned ids,
boolean queries) are supplied by per-command oracle structures, and the
mutex-guarded `HashMap<String, InstanceRuntime>` registry becomes an
association list with `HashMap`-style lookup / insert / remove.
-/

namespace MXU

/-- Per-instance aggregate of native handles plus cached task ids,
embedding the Rust struct `InstanceRuntime` (handles `Option<*mut T>`
become `Option Nat`, the agent `Child` becomes `Option Nat`). -/
structure InstanceRuntime where
  resource : Option Nat
  controller : Option Nat
  tasker : Option Nat
  agent_client : Option Nat
  agent_child : Option Nat
  task_ids : List Int
deriving Repr, DecidableEq

/-- Embedding of `InstanceRuntime::default`: all handles absent, no task ids. -/
def InstanceRuntime.empty : InstanceRuntime :=
  { resource := none, controller := none, tasker := none,
    agent_client := none, agent_child := none, task_ids := [] }

/-- One native-library call (or agent-process operation) performed by a
command, recorded in the order the Rust code performs them. -/
inductive NativeEvent where
  | agentClientDisconnect (h : Nat)
  | agentClientDestroy (h : Nat)
  | agentClientCreate (h : Nat)
  | agentClientCreateNull
  | agentClientBindResource (h r : Nat)
  | agentClientIdentifier (h : Nat)
  | agentClientSetTimeout (h : Nat) (ms : Int)
  | agentClientConnect (h : Nat)
  | stringBufferCreate
  | stringBufferCreateNull
  | stringBufferDestroy
  | spawnAgentProcess (child : Nat)
  | spawnAgentProcessFailed
  | childKill (h : Nat)
  | taskerCreate (h : Nat)
  | taskerCreateNull
  | taskerAddSink (h : Nat)
  | taskerBindResource (t r : Nat)
  | taskerBindController (t c : Nat)
  | taskerInited (t : Nat)
  | taskerPostTask (t : Nat) (entry : String)
  | taskerPostStop (t : Nat)
  | taskerStatus (t : Nat) (task_id : Int)
  | taskerDestroy (h : Nat)
  | controllerCreate (h : Nat)
  | controllerCreateNull
  | controllerAddSink (h : Nat)
  | controllerSetOption (h : Nat)
  | controllerPostConnection (h : Nat)
  | controllerConnected (h : Nat)
  | controllerDestroy (h : Nat)
  | resourceDestroy (h : Nat)
deriving Repr, DecidableEq

/-- Modelled from the spec: the sentinel invalid request id returned by a
failed native "post" call.  The constant itself lives in the FFI module
(`maa_ffi.rs`), which is not among the reviewed sources; no claim depends
on its exact value, only on comparisons against it. -/
def MAA_INVALID_ID : Int := 0

/-- The instance registry: embedding of `HashMap<String, InstanceRuntime>`. -/
abbrev Instances := List (String × InstanceRuntime)

/-- Registry lookup (`HashMap::get`). -/
def lookupInst : Instances → String → Option InstanceRuntime
  | [], _ => none
  | (k, v) :: rest, key => if k = key then some v else lookupInst rest key

/-- Registry insert-or-replace (`HashMap::insert`). -/
def insertInst : Instances → String → InstanceRuntime → Instances
  | [], key, v => [(key, v)]
  | (k, w) :: rest, key, v =>
      if k = key then (k, v) :: rest else (k, w) :: insertInst rest key v

/-- Registry removal (`HashMap::remove`). -/
def removeInst : Instances → String → Instances
  | [], _ => []
  | (k, v) :: rest, key => if k = key then rest else (k, v) :: removeInst rest key

/-- Registry membership (`HashMap::contains_key`). -/
def containsInst (m : Instances) (key : String) : Bool :=
  (lookupInst m key).isSome

theorem lookupInst_insert_self (m : Instances) (k : String) (v : InstanceRuntime) :
    lookupInst (insertInst m k v) k = some v := by
  induction m with
  | nil => simp [insertInst, lookupInst]
  | cons hd tl ih =>
      obtain ⟨k0, v0⟩ := hd
      by_cases hk : k0 = k
      · simp [insertInst, lookupInst, hk]
      · simp [insertInst, lookupInst, hk, ih]

theorem lookupInst_insert_other (m : Instances) (k k2 : String) (v : InstanceRuntime)
    (h : k ≠ k2) : lookupInst (insertInst m k v) k2 = lookupInst m k2 := by
  induction m with
  | nil => simp [insertInst, lookupInst, h]
  | cons hd tl ih =>
      obtain ⟨k0, v0⟩ := hd
      by_cases hk : k0 = k
      · subst hk
        simp [insertInst, lookupInst, h]
      · simp [insertInst, lookupInst, hk, ih]

/-- Embedding of `impl Drop for InstanceRuntime` (maa_commands.rs:183-210):
with the library loaded, each present handle is `take`-n (set to `None`) and
its native destructor invoked, in source order: agent client (disconnect
then destroy), agent child process (kill), tasker, controller, resource.
The steps are written sequentially, exactly as in the Rust `drop`. -/
def dropRuntime (libLoaded : Bool) (rt : InstanceRuntime) :
    InstanceRuntime × List NativeEvent :=
  if libLoaded then
    let s1 : List NativeEvent × InstanceRuntime :=
      match rt.agent_client with
      | some a => ([NativeEvent.agentClientDisconnect a, NativeEvent.agentClientDestroy a],
                   { rt with agent_client := none })
      | none => ([], rt)
    let s2 : List NativeEvent × InstanceRuntime :=
      match s1.2.agent_child with
      | some c => (s1.1 ++ [NativeEvent.childKill c], { s1.2 with agent_child := none })
      | none => s1
    let s3 : List NativeEvent × InstanceRuntime :=
      match s2.2.tasker with
      | some t => (s2.1 ++ [NativeEvent.taskerDestroy t], { s2.2 with tasker := none })
      | none => s2
    let s4 : List NativeEvent × InstanceRuntime :=
      match s3.2.controller with
      | some c => (s3.1 ++ [NativeEvent.controllerDestroy c], { s3.2 with controller := none })
      | none => s3
    let s5 : List NativeEvent × InstanceRuntime :=
      match s4.2.resource with
      | some r => (s4.1 ++ [NativeEvent.resourceDestroy r], { s4.2 with resource := none })
      | none => s4
    (s5.2, s5.1)
  else (rt, [])

/-- The teardown trace the specification prescribes, written independently of
`dropRuntime` as a concatenation in the claimed order. -/
def specTeardownTrace (rt : InstanceRuntime) : List NativeEvent :=
  (match rt.agent_client with
   | some a => [NativeEvent.agentClientDisconnect a, NativeEvent.agentClientDestroy a]
   | none => []) ++
  (match rt.agent_child with
   | some c => [NativeEvent.childKill c]
   | none => []) ++
  (match rt.tasker with
   | some t => [NativeEvent.taskerDestroy t]
   | none => []) ++
  (match rt.controller with
   | some c => [NativeEvent.controllerDestroy c]
   | none => []) ++
  (match rt.resource with
   | some r => [NativeEvent.resourceDestroy r]
   | none => [])

/-- Embedding of `maa_create_instance` (maa_commands.rs:515-529). -/
def maa_create_instance (instances : Instances) (instance_id : String) :
    Except String Unit × Instances :=
  if containsInst instances instance_id then (Except.ok (), instances)
  else (Except.ok (), insertInst instances instance_id InstanceRuntime.empty)

/-- Embedding of `maa_destroy_instance` (maa_commands.rs:532-548): removing
the runtime from the registry drops it, which runs `dropRuntime`. -/
def maa_destroy_instance (libLoaded : Bool) (instances : Instances)
    (instance_id : String) : Except String Unit × Instances × List NativeEvent :=
  match lookupInst instances instance_id with
  | some rt => (Except.ok (), removeInst instances instance_id,
                (dropRuntime libLoaded rt).2)
  | none => (Except.ok (), instances, [])

/-- Embedding of the `ControllerConfig` enum (maa_commands.rs:85-111).
In the `Adb` variant the two method masks are strings (parsed to `u64`
inside `maa_connect_controller`); the `Win32` and `Gamepad` variants carry
raw `u64` fields. -/
inductive ControllerConfig where
  | adb (adb_path address screencap_methods input_methods config : String)
  | win32 (handle screencap_method mouse_method keyboard_method : Nat)
  | gamepad (handle : Nat) (gamepad_type : Option String) (screencap_method : Option Nat)
  | playCover (address : String)
deriving Repr, DecidableEq

/-- Embedding of Rust `str::parse::<u64>`: decimal parse with the 64-bit
range check. -/
def parseU64 (s : String) : Option Nat :=
  match s.toNat? with
  | some n => if n < 2 ^ 64 then some n else none
  | none => none

/-- Results of the native calls made by `maa_connect_controller`:
the controller handle returned by the per-variant create call (`none`
embeds a null pointer) and the id returned by `MaaControllerPostConnection`. -/
structure ConnectOracle where
  create_result : Option Nat
  post_conn_result : Int
deriving Repr, DecidableEq

/-- The part of `maa_connect_controller` after the per-variant create
arguments are validated (maa_commands.rs:659-714): null-check the created
controller, add the sink, set the screenshot option, post the connection,
destroy the fresh controller when the post returns the sentinel, and only
then look the instance up and swap in the new controller (destroying the
old one if present). -/
def connectWithController (o : ConnectOracle) (instances : Instances)
    (instance_id : String) : Except String Int × Instances × List NativeEvent :=
  match o.create_result with
  | none => (Except.error "Failed to create controller", instances,
             [NativeEvent.controllerCreateNull])
  | some ctrl =>
    let evs := [NativeEvent.controllerCreate ctrl, NativeEvent.controllerAddSink ctrl,
                NativeEvent.controllerSetOption ctrl, NativeEvent.controllerPostConnection ctrl]
    if o.post_conn_result = MAA_INVALID_ID then
      (Except.error "Failed to post connection", instances,
       evs ++ [NativeEvent.controllerDestroy ctrl])
    else
      match lookupInst instances instance_id with
      | none => (Except.error "Instance not found", instances, evs)
      | some rt =>
        match rt.controller with
        | some old =>
          (Except.ok o.post_conn_result,
           insertInst instances instance_id { rt with controller := some ctrl },
           evs ++ [NativeEvent.controllerDestroy old])
        | none =>
          (Except.ok o.post_conn_result,
           insertInst instances instance_id { rt with controller := some ctrl },
           evs)

/-- Embedding of `maa_connect_controller` (maa_commands.rs:552-714):
validates / parses the config variant, then runs the common create-and-post
path. Note that the instance lookup happens only inside
`connectWithController`, after the native create / post calls. -/
def maa_connect_controller (o : ConnectOracle) (instances : Instances)
    (instance_id : String) (config : ControllerConfig) :
    Except String Int × Instances × List NativeEvent :=
  match config with
  | ControllerConfig.playCover _ =>
      (Except.error "PlayCover controller is only supported on macOS", instances, [])
  | ControllerConfig.adb _ _ sm im _ =>
      match parseU64 sm with
      | none => (Except.error "Invalid screencap_methods", instances, [])
      | some _ =>
        match parseU64 im with
        | none => (Except.error "Invalid input_methods", instances, [])
        | some _ => connectWithController o instances instance_id
  | ControllerConfig.win32 _ _ _ _ => connectWithController o instances instance_id
  | ControllerConfig.gamepad _ _ _ => connectWithController o instances instance_id

/-- Embedding of the `ConnectionStatus` enum (maa_commands.rs:113-120). -/
inductive ConnectionStatus where
  | disconnected
  | connecting
  | connected
  | failed (reason : String)
deriving Repr, DecidableEq

/-- Embedding of `maa_get_connection_status` (maa_commands.rs:717-745):
`connected_query` is the boolean result of the native
`MaaControllerConnected` call. -/
def maa_get_connection_status (connected_query : Bool) (instances : Instances)
    (instance_id : String) : Except String ConnectionStatus × List NativeEvent :=
  match lookupInst instances instance_id with
  | none => (Except.error "Instance not found", [])
  | some rt =>
    match rt.controller with
    | none => (Except.ok ConnectionStatus.disconnected, [])
    | some c =>
      (Except.ok (if connected_query then ConnectionStatus.connected
                  else ConnectionStatus.disconnected),
       [NativeEvent.controllerConnected c])

/-- Embedding of `maa_destroy_resource` (maa_commands.rs:824-852): takes and
destroys the resource handle if present, then takes and destroys the tasker
handle if present (the tasker is bound to the destroyed resource). -/
def maa_destroy_resource (instances : Instances) (instance_id : String) :
    Except String Unit × Instances × List NativeEvent :=
  match lookupInst instances instance_id with
  | none => (Except.error "Instance not found", instances, [])
  | some rt =>
    let evs1 := match rt.resource with
      | some r => [NativeEvent.resourceDestroy r]
      | none => []
    let evs2 := match rt.tasker with
      | some t => [NativeEvent.taskerDestroy t]
      | none => []
    (Except.ok (),
     insertInst instances instance_id { rt with resource := none, tasker := none },
     evs1 ++ evs2)

/-- Results of the native calls made by `maa_run_task`: the tasker handle
returned by `MaaTaskerCreate` when one must be created (`none` embeds a
null pointer), the boolean result of `MaaTaskerInited`, and the id returned
by `MaaTaskerPostTask`. -/
structure RunTaskOracle where
  tasker_create_result : Option Nat
  inited_result : Bool
  post_task_result : Int
deriving Repr, DecidableEq

/-- The tail of `maa_run_task` once a tasker handle `t` is at hand
(maa_commands.rs:903-930): inited check, post, then re-lock the registry
and push the new task id. -/
def runTaskWithTasker (o : RunTaskOracle) (instances : Instances)
    (instance_id entry : String) (t : Nat) (evs : List NativeEvent) :
    Except String Int × Instances × List NativeEvent :=
  let evs := evs ++ [NativeEvent.taskerInited t]
  if !o.inited_result then
    (Except.error "Tasker not properly initialized", instances, evs)
  else
    let evs := evs ++ [NativeEvent.taskerPostTask t entry]
    if o.post_task_result = MAA_INVALID_ID then
      (Except.error "Failed to post task", instances, evs)
    else
      match lookupInst instances instance_id with
      | some rt =>
        (Except.ok o.post_task_result,
         insertInst instances instance_id
           { rt with task_ids := rt.task_ids ++ [o.post_task_result] },
         evs)
      | none => (Except.ok o.post_task_result, instances, evs)

/-- Embedding of `maa_run_task` (maa_commands.rs:857-931): instance lookup,
resource / controller precondition checks, lazy tasker creation bound to
that resource and controller, inited check, task post, task-id caching. -/
def maa_run_task (o : RunTaskOracle) (instances : Instances)
    (instance_id entry : String) : Except String Int × Instances × List NativeEvent :=
  match lookupInst instances instance_id with
  | none => (Except.error "Instance not found", instances, [])
  | some rt =>
    match rt.resource with
    | none => (Except.error "Resource not loaded", instances, [])
    | some resource =>
      match rt.controller with
      | none => (Except.error "Controller not connected", instances, [])
      | some controller =>
        match rt.tasker with
        | some t => runTaskWithTasker o instances instance_id entry t []
        | none =>
          match o.tasker_create_result with
          | none => (Except.error "Failed to create tasker", instances,
                     [NativeEvent.taskerCreateNull])
          | some t =>
            runTaskWithTasker o
              (insertInst instances instance_id { rt with tasker := some t })
              instance_id entry t
              [NativeEvent.taskerCreate t, NativeEvent.taskerAddSink t,
               NativeEvent.taskerBindResource t resource,
               NativeEvent.taskerBindController t controller]

/-- Embedding of `maa_stop_task` (maa_commands.rs:972-991): the cached task
ids are cleared before the tasker existence check, so they are cleared even
when the command then fails with "Tasker not created". -/
def maa_stop_task (instances : Instances) (instance_id : String) :
    Except String Unit × Instances × List NativeEvent :=
  match lookupInst instances instance_id with
  | none => (Except.error "Instance not found", instances, [])
  | some rt =>
    let instances2 := insertInst instances instance_id { rt with task_ids := [] }
    match rt.tasker with
    | none => (Except.error "Tasker not created", instances2, [])
    | some t => (Except.ok (), instances2, [NativeEvent.taskerPostStop t])

/-- Embedding of the `TaskStatus` enum (maa_commands.rs:123-129). -/
inductive TaskStatus where
  | pending
  | running
  | succeeded
  | failed
deriving Repr, DecidableEq

/-- The status-code match of `maa_get_task_status` (maa_commands.rs:956-961),
parametrised by the three recognised codes `MAA_STATUS_PENDING`,
`MAA_STATUS_RUNNING`, `MAA_STATUS_SUCCEEDED` (their numeric values live in
the FFI module outside the reviewed sources); the wildcard arm maps every
other code to `Failed`. -/
def statusToTaskStatus (statusPending statusRunning statusSucceeded status : Int) :
    TaskStatus :=
  if status = statusPending then TaskStatus.pending
  else if status = statusRunning then TaskStatus.running
  else if status = statusSucceeded then TaskStatus.succeeded
  else TaskStatus.failed

/-- Embedding of `maa_get_task_status` (maa_commands.rs:935-968):
`status_result` is the raw code returned by the native `MaaTaskerStatus`. -/
def maa_get_task_status (statusPending statusRunning statusSucceeded : Int)
    (status_result : Int) (instances : Instances) (instance_id : String)
    (task_id : Int) : Except String TaskStatus × List NativeEvent :=
  match lookupInst instances instance_id with
  | none => (Except.error "Instance not found", [])
  | some rt =>
    match rt.tasker with
    | none => (Except.error "Tasker not created", [])
    | some t =>
      (Except.ok (statusToTaskStatus statusPending statusRunning statusSucceeded
                    status_result),
       [NativeEvent.taskerStatus t task_id])

/-- Embedding of `TaskConfig` (maa_commands.rs:1135-1139). -/
structure TaskConfig where
  entry : String
  pipeline_override : String
deriving Repr, DecidableEq

/-- Embedding of `AgentConfig` (maa_commands.rs:1125-1132). -/
structure AgentConfig where
  child_exec : String
  child_args : Option (List String)
  identifier : Option String
  timeout : Option Int
deriving Repr, DecidableEq

/-- Results of the native calls made by `maa_start_tasks`: handles returned
by the create calls (`none` embeds a null pointer), the booleans returned
by the identifier / connect / inited queries, whether the agent subprocess
spawn succeeded (with the child handle), and the id returned by
`MaaTaskerPostTask` for the i-th posted task. -/
structure StartTasksOracle where
  tasker_create_result : Option Nat
  agent_client_create_result : Option Nat
  string_buffer_create_ok : Bool
  identifier_ok : Bool
  spawn_result : Option Nat
  connect_ok : Bool
  inited_result : Bool
  post_task_result : Nat → Int

/-- The task-posting loop of `maa_start_tasks` (maa_commands.rs:1409-1424):
posts tasks sequentially; an id equal to the sentinel is skipped with a
warning, every other id is collected in order. -/
def postTasksLoop (post : Nat → Int) (t : Nat) (tasks : List TaskConfig) (i : Nat) :
    List Int × List NativeEvent :=
  match tasks with
  | [] => ([], [])
  | task :: rest =>
    let r := post i
    let tl := postTasksLoop post t rest (i + 1)
    (if r = MAA_INVALID_ID then tl.1 else r :: tl.1,
     NativeEvent.taskerPostTask t task.entry :: tl.2)

/-- The tail of `maa_start_tasks` after the (optional) agent section
(maa_commands.rs:1402-1434): inited check, posting loop, then re-lock the
registry and REPLACE the cached task ids with the freshly posted ones
(`instance.task_ids = task_ids.clone()`). -/
def startTasksFinish (o : StartTasksOracle) (instances : Instances)
    (instance_id : String) (tasks : List TaskConfig) (t : Nat)
    (evs : List NativeEvent) :
    Except String (List Int) × Instances × List NativeEvent :=
  let evs := evs ++ [NativeEvent.taskerInited t]
  if !o.inited_result then
    (Except.error "Tasker not properly initialized", instances, evs)
  else
    let pr := postTasksLoop o.post_task_result t tasks 0
    let evs := evs ++ pr.2
    match lookupInst instances instance_id with
    | some rt =>
      (Except.ok pr.1,
       insertInst instances instance_id { rt with task_ids := pr.1 }, evs)
    | none => (Except.ok pr.1, instances, evs)

/-- The agent section of `maa_start_tasks` (maa_commands.rs:1194-1400):
create the agent client, bind the resource, fetch the rendezvous
identifier, spawn the subprocess, set the timeout and connect; on connect
failure the child is retained on the instance and the agent client is
destroyed; on success both are stored on the instance. -/
def startTasksAgent (o : StartTasksOracle) (instances : Instances)
    (instance_id : String) (tasks : List TaskConfig) (resource : Nat)
    (agent : AgentConfig) (t : Nat) (evs : List NativeEvent) :
    Except String (List Int) × Instances × List NativeEvent :=
  match o.agent_client_create_result with
  | none => (Except.error "Failed to create agent client", instances,
             evs ++ [NativeEvent.agentClientCreateNull])
  | some ac =>
    let evs := evs ++ [NativeEvent.agentClientCreate ac,
                       NativeEvent.agentClientBindResource ac resource]
    if !o.string_buffer_create_ok then
      (Except.error "Failed to create string buffer", instances,
       evs ++ [NativeEvent.stringBufferCreateNull, NativeEvent.agentClientDestroy ac])
    else
      let evs := evs ++ [NativeEvent.stringBufferCreate]
      if !o.identifier_ok then
        (Except.error "Failed to get agent identifier", instances,
         evs ++ [NativeEvent.agentClientIdentifier ac, NativeEvent.stringBufferDestroy,
                 NativeEvent.agentClientDestroy ac])
      else
        let evs := evs ++ [NativeEvent.agentClientIdentifier ac,
                           NativeEvent.stringBufferDestroy]
        match o.spawn_result with
        | none => (Except.error "Failed to start agent process", instances,
                   evs ++ [NativeEvent.spawnAgentProcessFailed])
        | some child =>
          let ms := agent.timeout.getD (-1)
          let evs := evs ++ [NativeEvent.spawnAgentProcess child,
                             NativeEvent.agentClientSetTimeout ac ms]
          if !o.connect_ok then
            let instances2 := match lookupInst instances instance_id with
              | some rt => insertInst instances instance_id
                  { rt with agent_child := some child }
              | none => instances
            (Except.error "Failed to connect to agent", instances2,
             evs ++ [NativeEvent.agentClientConnect ac, NativeEvent.agentClientDestroy ac])
          else
            let instances2 := match lookupInst instances instance_id with
              | some rt => insertInst instances instance_id
                  { rt with agent_client := some ac, agent_child := some child }
              | none => instances
            startTasksFinish o instances2 instance_id tasks t
              (evs ++ [NativeEvent.agentClientConnect ac])

/-- Embedding of `maa_start_tasks` (maa_commands.rs:1143-1435): instance
lookup, resource / controller precondition checks, lazy tasker creation
bound to that resource and controller, optional agent startup, inited
check, sequential posting, task-id cache replacement. -/
def maa_start_tasks (o : StartTasksOracle) (instances : Instances)
    (instance_id : String) (tasks : List TaskConfig)
    (agent_config : Option AgentConfig) :
    Except String (List Int) × Instances × List NativeEvent :=
  match lookupInst instances instance_id with
  | none => (Except.error "Instance not found", instances, [])
  | some rt =>
    match rt.resource with
    | none => (Except.error "Resource not loaded", instances, [])
    | some resource =>
      match rt.controller with
      | none => (Except.error "Controller not connected", instances, [])
      | some controller =>
        let step : Option (Nat × Instances × List NativeEvent) :=
          match rt.tasker with
          | some t => some (t, instances, [])
          | none =>
            match o.tasker_create_result with
            | none => none
            | some t =>
              some (t, insertInst instances instance_id { rt with tasker := some t },
                    [NativeEvent.taskerCreate t, NativeEvent.taskerAddSink t,
                     NativeEvent.taskerBindResource t resource,
                     NativeEvent.taskerBindController t controller])
        match step with
        | none => (Except.error "Failed to create tasker", instances,
                   [NativeEvent.taskerCreateNull])
        | some (t, instances1, evs1) =>
          match agent_config with
          | none => startTasksFinish o instances1 instance_id tasks t evs1
          | some agent =>
              startTasksAgent o instances1 instance_id tasks resource agent t evs1

/-- A JSON scalar as produced by the serde serialisation of the command
surface: either a JSON string or a raw JSON number. -/
inductive JsonValue where
  | str (s : String)
  | num (n : Nat)
  | null
deriving Repr, DecidableEq

/-- Whether a serialised scalar crossed the boundary as a decimal string. -/
def JsonValue.isStr : JsonValue → Bool
  | JsonValue.str _ => true
  | JsonValue.num _ => false
  | JsonValue.null => false

/-- Embedding of the `u64_as_string` serde module (maa_commands.rs:57-74):
serialises a `u64` as its decimal string. -/
def u64_as_string (value : Nat) : JsonValue := JsonValue.str (toString value)

/-- Embedding of `AdbDevice` (maa_commands.rs:44-54). -/
structure AdbDevice where
  name : String
  adb_path : String
  address : String
  screencap_methods : Nat
  input_methods : Nat
  config : String
deriving Repr, DecidableEq

/-- Serde serialisation of `AdbDevice`: the two method masks carry
`#[serde(with = "u64_as_string")]`, every other field is a plain string. -/
def serializeAdbDevice (d : AdbDevice) : List (String × JsonValue) :=
  [("name", JsonValue.str d.name),
   ("adb_path", JsonValue.str d.adb_path),
   ("address", JsonValue.str d.address),
   ("screencap_methods", u64_as_string d.screencap_methods),
   ("input_methods", u64_as_string d.input_methods),
   ("config", JsonValue.str d.config)]

/-- Embedding of `Win32Window` (maa_commands.rs:77-82). -/
structure Win32Window where
  handle : Nat
  class_name : String
  window_name : String
deriving Repr, DecidableEq

/-- Serde serialisation of `Win32Window`: `handle` is a plain `u64` field
with no string attribute, so it serialises as a raw JSON number. -/
def serializeWin32Window (w : Win32Window) : List (String × JsonValue) :=
  [("handle", JsonValue.num w.handle),
   ("class_name", JsonValue.str w.class_name),
   ("window_name", JsonValue.str w.window_name)]

/-- Serde serialisation of `ControllerConfig` (internally tagged with
"type"): the `Adb` variant carries its method masks as `String` fields,
while the `Win32` and `Gamepad` variants carry raw `u64` fields that
serialise as JSON numbers. -/
def serializeControllerConfig : ControllerConfig → List (String × JsonValue)
  | ControllerConfig.adb p a sm im cfg =>
      [("type", JsonValue.str "Adb"),
       ("adb_path", JsonValue.str p),
       ("address", JsonValue.str a),
       ("screencap_methods", JsonValue.str sm),
       ("input_methods", JsonValue.str im),
       ("config", JsonValue.str cfg)]
  | ControllerConfig.win32 h sc mo kb =>
      [("type", JsonValue.str "Win32"),
       ("handle", JsonValue.num h),
       ("screencap_method", JsonValue.num sc),
       ("mouse_method", JsonValue.num mo),
       ("keyboard_method", JsonValue.num kb)]
  | ControllerConfig.gamepad h gt sc =>
      [("type", JsonValue.str "Gamepad"),
       ("handle", JsonValue.num h),
       ("gamepad_type", match gt with
        | some g => JsonValue.str g
        | none => JsonValue.null),
       ("screencap_method", match sc with
        | some s => JsonValue.num s
        | none => JsonValue.null)]
  | ControllerConfig.playCover a =>
      [("type", JsonValue.str "PlayCover"),
       ("address", JsonValue.str a)]

/-- A runtime with every handle populated, used as a concrete test input. -/
def rtFull : InstanceRuntime :=
  { resource := some 1, controller := some 2, tasker := some 3,
    agent_client := some 4, agent_child := some 5, task_ids := [9] }

/-- A runtime ready to post tasks (resource, controller and tasker present,
one previously posted task id cached), used as a concrete test input. -/
def rtReady : InstanceRuntime :=
  { resource := some 1, controller := some 2, tasker := some 3,
    agent_client := none, agent_child := none, task_ids := [5] }

/-- A run-task oracle where every native call succeeds and the post returns
id 7, used as a concrete test input. -/
def oRunOk : RunTaskOracle :=
  { tasker_create_result := some 99, inited_result := true, post_task_result := 7 }

/-- A start-tasks oracle where every native call succeeds and each post
returns id 7, used as a concrete test input. -/
def oStartOk : StartTasksOracle :=
  { tasker_create_result := some 99, agent_client_create_result := some 50,
    string_buffer_create_ok := true, identifier_ok := true,
    spawn_result := some 60, connect_ok := true, inited_result := true,
    post_task_result := fun _ => 7 }

-- ============================================================================
-- Helper lemmas
-- ============================================================================

theorem dropRuntime_true (rt : InstanceRuntime) :
    dropRuntime true rt =
      ({ resource := none, controller := none, tasker := none, agent_client := none,
         agent_child := none, task_ids := rt.task_ids }, specTeardownTrace rt) := by
  obtain ⟨r, c, t, a, ch, ids⟩ := rt
  cases a <;> cases ch <;> cases t <;> cases c <;> cases r <;> rfl

theorem runTaskWithTasker_trace_prefix (o : RunTaskOracle) (instances : Instances)
    (instance_id entry : String) (t : Nat) (evs : List NativeEvent) :
    ∃ rest, (runTaskWithTasker o instances instance_id entry t evs).2.2 = evs ++ rest := by
  unfold runTaskWithTasker
  cases hin : o.inited_result
  · exact ⟨[NativeEvent.taskerInited t], by simp⟩
  · by_cases hp : o.post_task_result = MAA_INVALID_ID
    · exact ⟨[NativeEvent.taskerInited t, NativeEvent.taskerPostTask t entry],
        by simp [hp]⟩
    · cases hl : lookupInst instances instance_id
      · exact ⟨[NativeEvent.taskerInited t, NativeEvent.taskerPostTask t entry],
          by simp [hp, hl]⟩
      · exact ⟨[NativeEvent.taskerInited t, NativeEvent.taskerPostTask t entry],
          by simp [hp, hl]⟩

theorem startTasksFinish_trace_prefix (o : StartTasksOracle) (instances : Instances)
    (instance_id : String) (tasks : List TaskConfig) (t : Nat)
    (evs : List NativeEvent) :
    ∃ rest, (startTasksFinish o instances instance_id tasks t evs).2.2 = evs ++ rest := by
  unfold startTasksFinish
  cases hin : o.inited_result
  · exact ⟨[NativeEvent.taskerInited t], by simp⟩
  · cases hl : lookupInst instances instance_id
    · exact ⟨NativeEvent.taskerInited t :: (postTasksLoop o.post_task_result t tasks 0).2,
        by simp [hl]⟩
    · exact ⟨NativeEvent.taskerInited t :: (postTasksLoop o.post_task_result t tasks 0).2,
        by simp [hl]⟩

theorem startTasksAgent_trace_prefix (o : StartTasksOracle) (instances : Instances)
    (instance_id : String) (tasks : List TaskConfig) (resource : Nat)
    (agent : AgentConfig) (t : Nat) (evs : List NativeEvent) :
    ∃ rest, (startTasksAgent o instances instance_id tasks resource agent t evs).2.2 =
      evs ++ rest := by
  unfold startTasksAgent
  cases hac : o.agent_client_create_result with
  | none => exact ⟨[NativeEvent.agentClientCreateNull], by simp⟩
  | some ac =>
    cases hsb : o.string_buffer_create_ok
    · exact ⟨[NativeEvent.agentClientCreate ac,
              NativeEvent.agentClientBindResource ac resource,
              NativeEvent.stringBufferCreateNull, NativeEvent.agentClientDestroy ac],
        by simp⟩
    · cases hid : o.identifier_ok
      · exact ⟨[NativeEvent.agentClientCreate ac,
                NativeEvent.agentClientBindResource ac resource,
                NativeEvent.stringBufferCreate, NativeEvent.agentClientIdentifier ac,
                NativeEvent.stringBufferDestroy, NativeEvent.agentClientDestroy ac],
          by simp⟩
      · cases hsp : o.spawn_result with
        | none =>
          exact ⟨[NativeEvent.agentClientCreate ac,
                  NativeEvent.agentClientBindResource ac resource,
                  NativeEvent.stringBufferCreate, NativeEvent.agentClientIdentifier ac,
                  NativeEvent.stringBufferDestroy, NativeEvent.spawnAgentProcessFailed],
            by simp⟩
        | some child =>
          cases hcon : o.connect_ok
          · exact ⟨[NativeEvent.agentClientCreate ac,
                    NativeEvent.agentClientBindResource ac resource,
                    NativeEvent.stringBufferCreate, NativeEvent.agentClientIdentifier ac,
                    NativeEvent.stringBufferDestroy, NativeEvent.spawnAgentProcess child,
                    NativeEvent.agentClientSetTimeout ac (agent.timeout.getD (-1)),
                    NativeEvent.agentClientConnect ac, NativeEvent.agentClientDestroy ac],
              by simp⟩
          · obtain ⟨rest, hrest⟩ := startTasksFinish_trace_prefix o
              (match lookupInst instances instance_id with
               | some rt => insertInst instances instance_id
                   { rt with agent_client := some ac, agent_child := some child }
               | none => instances)
              instance_id tasks t
              (evs ++ [NativeEvent.agentClientCreate ac,
                       NativeEvent.agentClientBindResource ac resource] ++
               [NativeEvent.stringBufferCreate] ++
               [NativeEvent.agentClientIdentifier ac, NativeEvent.stringBufferDestroy] ++
               [NativeEvent.spawnAgentProcess child,
                NativeEvent.agentClientSetTimeout ac (agent.timeout.getD (-1))] ++
               [NativeEvent.agentClientConnect ac])
            refine ⟨[NativeEvent.agentClientCreate ac,
                     NativeEvent.agentClientBindResource ac resource,
                     NativeEvent.stringBufferCreate, NativeEvent.agentClientIdentifier ac,
                     NativeEvent.stringBufferDestroy, NativeEvent.spawnAgentProcess child,
                     NativeEvent.agentClientSetTimeout ac (agent.timeout.getD (-1)),
                     NativeEvent.agentClientConnect ac] ++ rest, ?_⟩
            simp only [List.append_assoc] at hrest ⊢
            simpa using hrest

-- ============================================================================
-- Claim theorems
-- ============================================================================

/-- C1: dropping an `InstanceRuntime` (with the native library loaded)
releases the native handles strictly in the order agent_client (disconnect
then destroy) → agent child process (terminate) → tasker → controller →
resource, and afterwards every handle field of the runtime is `none`
(the cached task ids are untouched); `maa_destroy_instance` on a registered
id returns success, removes the id, and performs exactly this teardown. -/
theorem claim_C1_teardown (rt : InstanceRuntime) (instances : Instances)
    (id : String) (h : lookupInst instances id = some rt) :
    (dropRuntime true rt).2 = specTeardownTrace rt ∧
    (dropRuntime true rt).1.agent_client = none ∧
    (dropRuntime true rt).1.agent_child = none ∧
    (dropRuntime true rt).1.tasker = none ∧
    (dropRuntime true rt).1.controller = none ∧
    (dropRuntime true rt).1.resource = none ∧
    maa_destroy_instance true instances id =
      (Except.ok (), removeInst instances id, specTeardownTrace rt) := by
  refine ⟨?_, ?_, ?_, ?_, ?_, ?_, ?_⟩ <;>
    simp [dropRuntime_true, maa_destroy_instance, h]

/-- Witness for C1 at a fully populated runtime. -/
theorem claim_C1_teardown_witness :
    (dropRuntime true rtFull).2 = specTeardownTrace rtFull ∧
    (dropRuntime true rtFull).1.agent_client = none ∧
    (dropRuntime true rtFull).1.agent_child = none ∧
    (dropRuntime true rtFull).1.tasker = none ∧
    (dropRuntime true rtFull).1.controller = none ∧
    (dropRuntime true rtFull).1.resource = none ∧
    maa_destroy_instance true [("x", rtFull)] "x" =
      (Except.ok (), removeInst [("x", rtFull)] "x", specTeardownTrace rtFull) :=
  claim_C1_teardown rtFull [("x", rtFull)] "x" rfl

/-- C6: `maa_create_instance` is idempotent — on an id already in the
registry it returns success and leaves the registry (hence the existing
runtime, all its handle fields and task ids) unaltered; on an absent id it
inserts an empty runtime, returns success, and every other id still maps
to its previous runtime. -/
theorem claim_C6_create_idempotent (instances : Instances) (id : String) :
    (containsInst instances id = true →
       maa_create_instance instances id = (Except.ok (), instances)) ∧
    (containsInst instances id = false →
       maa_create_instance instances id =
         (Except.ok (), insertInst instances id InstanceRuntime.empty) ∧
       lookupInst (maa_create_instance instances id).2 id = some InstanceRuntime.empty ∧
       ∀ id2, id2 ≠ id →
         lookupInst (maa_create_instance instances id).2 id2 = lookupInst instances id2) := by
  constructor
  · intro hc
    simp [maa_create_instance, hc]
  · intro hc
    refine ⟨by simp [maa_create_instance, hc], ?_, ?_⟩
    · simp [maa_create_instance, hc, lookupInst_insert_self]
    · intro id2 hne
      simp [maa_create_instance, hc, lookupInst_insert_other _ _ _ _ (Ne.symm hne)]

/-- Witness for C6: creating "x" twice — absent the first time, present the
second — and checking both behaviours. -/
theorem claim_C6_create_idempotent_witness :
    ((containsInst [] "x" = true → maa_create_instance [] "x" = (Except.ok (), [])) ∧
     (containsInst [] "x" = false →
        maa_create_instance [] "x" =
          (Except.ok (), insertInst [] "x" InstanceRuntime.empty) ∧
        lookupInst (maa_create_instance [] "x").2 "x" = some InstanceRuntime.empty ∧
        ∀ id2, id2 ≠ "x" →
          lookupInst (maa_create_instance [] "x").2 id2 = lookupInst [] id2)) ∧
    maa_create_instance [("x", InstanceRuntime.empty)] "x" =
      (Except.ok (), [("x", InstanceRuntime.empty)]) :=
  ⟨claim_C6_create_idempotent [] "x",
   (claim_C6_create_idempotent [("x", InstanceRuntime.empty)] "x").1 rfl⟩

/-- C2: a tasker is never created while the instance's resource or
controller handle is absent — `maa_run_task` and `maa_start_tasks` return
the precondition error (resource not loaded / controller not connected)
with no native call and unchanged state when either handle is missing —
and the tasker created on first use is bound, immediately after creation,
to exactly that resource and controller. -/
theorem claim_C2_scheduler_preconditions
    (o : RunTaskOracle) (o2 : StartTasksOracle) (instances : Instances)
    (id entry : String) (tasks : List TaskConfig) (agent_config : Option AgentConfig)
    (rt : InstanceRuntime) (h : lookupInst instances id = some rt) :
    (rt.resource = none →
       maa_run_task o instances id entry =
         (Except.error "Resource not loaded", instances, []) ∧
       maa_start_tasks o2 instances id tasks agent_config =
         (Except.error "Resource not loaded", instances, [])) ∧
    (∀ r, rt.resource = some r → rt.controller = none →
       maa_run_task o instances id entry =
         (Except.error "Controller not connected", instances, []) ∧
       maa_start_tasks o2 instances id tasks agent_config =
         (Except.error "Controller not connected", instances, [])) ∧
    (∀ r c t, rt.resource = some r → rt.controller = some c → rt.tasker = none →
       o.tasker_create_result = some t →
       ∃ rest, (maa_run_task o instances id entry).2.2 =
         [NativeEvent.taskerCreate t, NativeEvent.taskerAddSink t,
          NativeEvent.taskerBindResource t r,
          NativeEvent.taskerBindController t c] ++ rest) ∧
    (∀ r c t, rt.resource = some r → rt.controller = some c → rt.tasker = none →
       o2.tasker_create_result = some t →
       ∃ rest, (maa_start_tasks o2 instances id tasks agent_config).2.2 =
         [NativeEvent.taskerCreate t, NativeEvent.taskerAddSink t,
          NativeEvent.taskerBindResource t r,
          NativeEvent.taskerBindController t c] ++ rest) := by
  refine ⟨?_, ?_, ?_, ?_⟩
  · intro hres
    exact ⟨by simp [maa_run_task, h, hres], by simp [maa_start_tasks, h, hres]⟩
  · intro r hr hc
    exact ⟨by simp [maa_run_task, h, hr, hc], by simp [maa_start_tasks, h, hr, hc]⟩
  · intro r c t hr hc ht hcr
    simp only [maa_run_task, h, hr, hc, ht, hcr]
    exact runTaskWithTasker_trace_prefix o _ id entry t _
  · intro r c t hr hc ht hcr
    cases agent_config with
    | none =>
      simp only [maa_start_tasks, h, hr, hc, ht, hcr]
      exact startTasksFinish_trace_prefix o2 _ id tasks t _
    | some agent =>
      simp only [maa_start_tasks, h, hr, hc, ht, hcr]
      exact startTasksAgent_trace_prefix o2 _ id tasks r agent t _

/-- Witness for C2: on an empty runtime both task commands fail with the
resource precondition, making no native call and leaving the registry
unchanged. -/
theorem claim_C2_scheduler_preconditions_witness :
    maa_run_task oRunOk [("x", InstanceRuntime.empty)] "x" "main" =
      (Except.error "Resource not loaded", [("x", InstanceRuntime.empty)], []) ∧
    maa_start_tasks oStartOk [("x", InstanceRuntime.empty)] "x"
        [{ entry := "main", pipeline_override := "" }] none =
      (Except.error "Resource not loaded", [("x", InstanceRuntime.empty)], []) :=
  (claim_C2_scheduler_preconditions oRunOk oStartOk [("x", InstanceRuntime.empty)]
    "x" "main" [{ entry := "main", pipeline_override := "" }] none
    InstanceRuntime.empty rfl).1 rfl

/-- Counterexample to C3: the posted-task-id sequence is NOT append-only —
with instance "x" holding a previously posted id 5, a successful
`maa_start_tasks` posting one task with id 7 leaves `task_ids = [7]`:
the earlier id 5 is gone although no stop request was issued
(maa_commands.rs:1430 assigns instead of appending). -/
theorem claim_C3_cex :
    lookupInst [("x", rtReady)] "x" = some rtReady ∧
    rtReady.task_ids = [5] ∧
    (maa_start_tasks oStartOk [("x", rtReady)] "x"
       [{ entry := "main", pipeline_override := "" }] none).1 = Except.ok [7] ∧
    lookupInst (maa_start_tasks oStartOk [("x", rtReady)] "x"
       [{ entry := "main", pipeline_override := "" }] none).2.1 "x" =
      some { rtReady with task_ids := [7] } ∧
    (5 : Int) ∉ ({ rtReady with task_ids := [7] } : InstanceRuntime).task_ids :=
  ⟨rfl, rfl, rfl, rfl, by decide⟩

/-- C3 as amended: `maa_run_task` appends each successfully posted id to
`posted_task_ids`; `maa_start_tasks` REPLACES the sequence with exactly the
ids successfully posted by that call (discarding earlier ids); a stop
request clears the sequence — also when the stop then fails because no
tasker exists. -/
theorem claim_C3_amended (o : RunTaskOracle) (o2 : StartTasksOracle)
    (instances : Instances) (id entry : String) (tasks : List TaskConfig)
    (rt : InstanceRuntime) (r c t : Nat)
    (h : lookupInst instances id = some rt)
    (hr : rt.resource = some r) (hc : rt.controller = some c)
    (ht : rt.tasker = some t) :
    (o.inited_result = true → o.post_task_result ≠ MAA_INVALID_ID →
       (maa_run_task o instances id entry).1 = Except.ok o.post_task_result ∧
       lookupInst (maa_run_task o instances id entry).2.1 id =
         some { rt with task_ids := rt.task_ids ++ [o.post_task_result] }) ∧
    (o2.inited_result = true →
       (maa_start_tasks o2 instances id tasks none).1 =
         Except.ok (postTasksLoop o2.post_task_result t tasks 0).1 ∧
       lookupInst (maa_start_tasks o2 instances id tasks none).2.1 id =
         some { rt with task_ids := (postTasksLoop o2.post_task_result t tasks 0).1 }) ∧
    ((maa_stop_task instances id).1 = Except.ok () ∧
     lookupInst (maa_stop_task instances id).2.1 id = some { rt with task_ids := [] }) ∧
    (∀ instances2 rt2, lookupInst instances2 id = some rt2 →
       lookupInst (maa_stop_task instances2 id).2.1 id =
         some { rt2 with task_ids := [] }) := by
  refine ⟨?_, ?_, ?_, ?_⟩
  · intro hin hp
    simp [maa_run_task, runTaskWithTasker, h, hr, hc, ht, hin, hp,
          lookupInst_insert_self]
  · intro hin
    simp [maa_start_tasks, startTasksFinish, h, hr, hc, ht, hin,
          lookupInst_insert_self]
  · simp [maa_stop_task, h, ht, lookupInst_insert_self]
  · intro instances2 rt2 h2
    cases ht2 : rt2.tasker <;>
      simp [maa_stop_task, h2, ht2, lookupInst_insert_self]

/-- Witness for C3 (amended) on the ready runtime: `maa_run_task` appends
7 to the cached [5]; a stop clears the cache. -/
theorem claim_C3_amended_witness :
    ((maa_run_task oRunOk [("x", rtReady)] "x" "main").1 = Except.ok 7 ∧
     lookupInst (maa_run_task oRunOk [("x", rtReady)] "x" "main").2.1 "x" =
       some { rtReady with task_ids := [5, 7] }) ∧
    lookupInst (maa_stop_task [("x", rtReady)] "x").2.1 "x" =
      some { rtReady with task_ids := [] } :=
  ⟨(claim_C3_amended oRunOk oStartOk [("x", rtReady)] "x" "main" [] rtReady
      1 2 3 rfl rfl rfl rfl).1 rfl (by decide),
   (claim_C3_amended oRunOk oStartOk [("x", rtReady)] "x" "main" [] rtReady
      1 2 3 rfl rfl rfl rfl).2.2.1.2⟩

/-- Counterexample to C4: `maa_connect_controller` invoked against a
missing instance id does NOT detect the error before native calls — it
creates, configures and posts connection on a new controller, and only
then returns the instance-not-found error, leaving the created controller
allocated (native state touched). -/
theorem claim_C4_cex :
    lookupInst ([] : Instances) "x" = none ∧
    (maa_connect_controller { create_result := some 1, post_conn_result := 10 }
       [] "x" (ControllerConfig.win32 0 0 0 0)).1 =
      Except.error "Instance not found" ∧
    (maa_connect_controller { create_result := some 1, post_conn_result := 10 }
       [] "x" (ControllerConfig.win32 0 0 0 0)).2.2 =
      [NativeEvent.controllerCreate 1, NativeEvent.controllerAddSink 1,
       NativeEvent.controllerSetOption 1, NativeEvent.controllerPostConnection 1] ∧
    (maa_connect_controller { create_result := some 1, post_conn_result := 10 }
       [] "x" (ControllerConfig.win32 0 0 0 0)).2.2 ≠ [] :=
  ⟨rfl, rfl, rfl, by decide⟩

/-- C4 as amended: every other instance-taking command (run task, start
tasks, task status, stop, connection status, destroy resource) returns the
instance-not-found error for a missing id with no native call and
unchanged state; `maa_connect_controller` alone performs the controller
create / sink / option / post-connection native calls first and reports
the missing instance only afterwards, leaving the new controller
allocated. -/
theorem claim_C4_amended (o : RunTaskOracle) (o2 : StartTasksOracle)
    (oc : ConnectOracle) (b : Bool) (p r s status task_id : Int)
    (instances : Instances) (id entry : String) (tasks : List TaskConfig)
    (agent_config : Option AgentConfig) (ctrl : Nat)
    (h : lookupInst instances id = none) :
    maa_run_task o instances id entry =
      (Except.error "Instance not found", instances, []) ∧
    maa_start_tasks o2 instances id tasks agent_config =
      (Except.error "Instance not found", instances, []) ∧
    maa_get_task_status p r s status instances id task_id =
      (Except.error "Instance not found", []) ∧
    maa_stop_task instances id = (Except.error "Instance not found", instances, []) ∧
    maa_get_connection_status b instances id = (Except.error "Instance not found", []) ∧
    maa_destroy_resource instances id =
      (Except.error "Instance not found", instances, []) ∧
    (oc.create_result = some ctrl → oc.post_conn_result ≠ MAA_INVALID_ID →
       connectWithController oc instances id =
         (Except.error "Instance not found", instances,
          [NativeEvent.controllerCreate ctrl, NativeEvent.controllerAddSink ctrl,
           NativeEvent.controllerSetOption ctrl,
           NativeEvent.controllerPostConnection ctrl])) := by
  refine ⟨?_, ?_, ?_, ?_, ?_, ?_, ?_⟩
  · simp [maa_run_task, h]
  · simp [maa_start_tasks, h]
  · simp [maa_get_task_status, h]
  · simp [maa_stop_task, h]
  · simp [maa_get_connection_status, h]
  · simp [maa_destroy_resource, h]
  · intro hc hp
    simp [connectWithController, hc, hp, h]

/-- Witness for C4 (amended): on the empty registry, `maa_run_task` fails
with no native call while `connectWithController` fails only after the
four controller calls. -/
theorem claim_C4_amended_witness :
    maa_run_task oRunOk [] "x" "main" =
      (Except.error "Instance not found", [], []) ∧
    connectWithController { create_result := some 1, post_conn_result := 10 } [] "x" =
      (Except.error "Instance not found", [],
       [NativeEvent.controllerCreate 1, NativeEvent.controllerAddSink 1,
        NativeEvent.controllerSetOption 1, NativeEvent.controllerPostConnection 1]) :=
  ⟨(claim_C4_amended oRunOk oStartOk { create_result := some 1, post_conn_result := 10 }
      true 0 0 0 0 0 [] "x" "main" [] none 1 rfl).1,
   (claim_C4_amended oRunOk oStartOk { create_result := some 1, post_conn_result := 10 }
      true 0 0 0 0 0 [] "x" "main" [] none 1 rfl).2.2.2.2.2.2 rfl (by decide)⟩

/-- C5: when controller creation returns null the command fails with no
state change; when the post-connection call returns the sentinel invalid
id, the command fails, destroys the freshly created controller, and leaves
the registry (hence any previously installed controller) unchanged; an
existing controller is destroyed and replaced only on the success path,
after the new controller is confirmed non-null and the post succeeded. -/
theorem claim_C5_connect_failure_safety (o : ConnectOracle) (instances : Instances)
    (id : String) (hnd sc mo kb : Nat) :
    (o.create_result = none →
       maa_connect_controller o instances id (ControllerConfig.win32 hnd sc mo kb) =
         (Except.error "Failed to create controller", instances,
          [NativeEvent.controllerCreateNull])) ∧
    (∀ ctrl, o.create_result = some ctrl → o.post_conn_result = MAA_INVALID_ID →
       maa_connect_controller o instances id (ControllerConfig.win32 hnd sc mo kb) =
         (Except.error "Failed to post connection", instances,
          [NativeEvent.controllerCreate ctrl, NativeEvent.controllerAddSink ctrl,
           NativeEvent.controllerSetOption ctrl, NativeEvent.controllerPostConnection ctrl,
           NativeEvent.controllerDestroy ctrl])) ∧
    (∀ ctrl rt old, o.create_result = some ctrl →
       o.post_conn_result ≠ MAA_INVALID_ID →
       lookupInst instances id = some rt → rt.controller = some old →
       maa_connect_controller o instances id (ControllerConfig.win32 hnd sc mo kb) =
         (Except.ok o.post_conn_result,
          insertInst instances id { rt with controller := some ctrl },
          [NativeEvent.controllerCreate ctrl, NativeEvent.controllerAddSink ctrl,
           NativeEvent.controllerSetOption ctrl, NativeEvent.controllerPostConnection ctrl,
           NativeEvent.controllerDestroy old])) := by
  refine ⟨?_, ?_, ?_⟩
  · intro hc
    simp [maa_connect_controller, connectWithController, hc]
  · intro ctrl hc hp
    simp [maa_connect_controller, connectWithController, hc, hp]
  · intro ctrl rt old hc hp h hold
    simp [maa_connect_controller, connectWithController, hc, hp, h, hold]

/-- Witness for C5: on instance "x" whose controller is handle 2, a failed
post destroys the fresh controller 9 and leaves the registry untouched,
while a successful post installs 9 and destroys 2. -/
theorem claim_C5_connect_failure_safety_witness :
    maa_connect_controller { create_result := some 9, post_conn_result := MAA_INVALID_ID }
        [("x", rtReady)] "x" (ControllerConfig.win32 1 2 3 4) =
      (Except.error "Failed to post connection", [("x", rtReady)],
       [NativeEvent.controllerCreate 9, NativeEvent.controllerAddSink 9,
        NativeEvent.controllerSetOption 9, NativeEvent.controllerPostConnection 9,
        NativeEvent.controllerDestroy 9]) ∧
    maa_connect_controller { create_result := some 9, post_conn_result := 5 }
        [("x", rtReady)] "x" (ControllerConfig.win32 1 2 3 4) =
      (Except.ok 5, [("x", { rtReady with controller := some 9 })],
       [NativeEvent.controllerCreate 9, NativeEvent.controllerAddSink 9,
        NativeEvent.controllerSetOption 9, NativeEvent.controllerPostConnection 9,
        NativeEvent.controllerDestroy 2]) :=
  ⟨(claim_C5_connect_failure_safety
      { create_result := some 9, post_conn_result := MAA_INVALID_ID }
      [("x", rtReady)] "x" 1 2 3 4).2.1 9 rfl rfl,
   (claim_C5_connect_failure_safety
      { create_result := some 9, post_conn_result := 5 }
      [("x", rtReady)] "x" 1 2 3 4).2.2 9 rtReady 2 rfl (by decide) rfl rfl⟩

/-- C7: the status mapping of `maa_get_task_status` is total — whatever the
three recognised codes and the queried code are, the result is one of the
four `TaskStatus` variants, any code distinct from all three recognised
codes maps to `Failed`, and on an instance with a tasker the command
returns exactly that mapping (no panic, an `Except` value in every case). -/
theorem claim_C7_status_totality (p r s status task_id : Int)
    (instances : Instances) (id : String) (rt : InstanceRuntime) (t : Nat)
    (h : lookupInst instances id = some rt) (ht : rt.tasker = some t) :
    (statusToTaskStatus p r s status = TaskStatus.pending ∨
     statusToTaskStatus p r s status = TaskStatus.running ∨
     statusToTaskStatus p r s status = TaskStatus.succeeded ∨
     statusToTaskStatus p r s status = TaskStatus.failed) ∧
    (status ≠ p → status ≠ r → status ≠ s →
       statusToTaskStatus p r s status = TaskStatus.failed) ∧
    maa_get_task_status p r s status instances id task_id =
      (Except.ok (statusToTaskStatus p r s status),
       [NativeEvent.taskerStatus t task_id]) := by
  refine ⟨?_, ?_, ?_⟩
  · unfold statusToTaskStatus
    split_ifs <;> simp
  · intro h1 h2 h3
    simp [statusToTaskStatus, h1, h2, h3]
  · simp [maa_get_task_status, h, ht]

/-- Witness for C7 at the MaaFramework codes 1000 / 2000 / 3000 and the
unrecognised code 4321, which maps to `Failed`. -/
theorem claim_C7_status_totality_witness :
    (statusToTaskStatus 1000 2000 3000 4321 = TaskStatus.pending ∨
     statusToTaskStatus 1000 2000 3000 4321 = TaskStatus.running ∨
     statusToTaskStatus 1000 2000 3000 4321 = TaskStatus.succeeded ∨
     statusToTaskStatus 1000 2000 3000 4321 = TaskStatus.failed) ∧
    ((4321 : Int) ≠ 1000 → (4321 : Int) ≠ 2000 → (4321 : Int) ≠ 3000 →
       statusToTaskStatus 1000 2000 3000 4321 = TaskStatus.failed) ∧
    maa_get_task_status 1000 2000 3000 4321 [("x", rtReady)] "x" 7 =
      (Except.ok (statusToTaskStatus 1000 2000 3000 4321),
       [NativeEvent.taskerStatus 3 7]) :=
  claim_C7_status_totality 1000 2000 3000 4321 7 [("x", rtReady)] "x" rtReady 3 rfl rfl

/-- C8: `maa_destroy_resource` succeeds on a registered instance, destroys
the resource handle and the tasker handle whenever they exist (in that
order), leaves both fields `none`, and afterwards posting a task via
`maa_run_task` fails with the resource precondition — a scheduler must be
re-created and re-bound first. -/
theorem claim_C8_destroy_resource (instances : Instances) (id : String)
    (rt : InstanceRuntime) (h : lookupInst instances id = some rt) :
    (maa_destroy_resource instances id).1 = Except.ok () ∧
    lookupInst (maa_destroy_resource instances id).2.1 id =
      some { rt with resource := none, tasker := none } ∧
    (maa_destroy_resource instances id).2.2 =
      (match rt.resource with
       | some r => [NativeEvent.resourceDestroy r]
       | none => []) ++
      (match rt.tasker with
       | some t => [NativeEvent.taskerDestroy t]
       | none => []) ∧
    (∀ o entry, maa_run_task o (maa_destroy_resource instances id).2.1 id entry =
       (Except.error "Resource not loaded",
        (maa_destroy_resource instances id).2.1, [])) := by
  refine ⟨?_, ?_, ?_, ?_⟩
  · simp [maa_destroy_resource, h]
  · simp [maa_destroy_resource, h, lookupInst_insert_self]
  · simp [maa_destroy_resource, h]
  · intro o entry
    simp [maa_run_task, maa_destroy_resource, h, lookupInst_insert_self]

/-- Witness for C8 on a fully populated runtime: resource 1 and tasker 3
are destroyed in that order and a follow-up run fails the precondition. -/
theorem claim_C8_destroy_resource_witness :
    (maa_destroy_resource [("x", rtFull)] "x").1 = Except.ok () ∧
    lookupInst (maa_destroy_resource [("x", rtFull)] "x").2.1 "x" =
      some { rtFull with resource := none, tasker := none } ∧
    (maa_destroy_resource [("x", rtFull)] "x").2.2 =
      [NativeEvent.resourceDestroy 1, NativeEvent.taskerDestroy 3] ∧
    maa_run_task oRunOk (maa_destroy_resource [("x", rtFull)] "x").2.1 "x" "main" =
      (Except.error "Resource not loaded",
       (maa_destroy_resource [("x", rtFull)] "x").2.1, []) :=
  ⟨(claim_C8_destroy_resource [("x", rtFull)] "x" rtFull rfl).1,
   (claim_C8_destroy_resource [("x", rtFull)] "x" rtFull rfl).2.1,
   (claim_C8_destroy_resource [("x", rtFull)] "x" rtFull rfl).2.2.1,
   (claim_C8_destroy_resource [("x", rtFull)] "x" rtFull rfl).2.2.2 oRunOk "main"⟩

/-- Counterexample to C9: `Win32Window.handle` crosses the command surface
as a raw JSON number, not a decimal string — at handle 2^53 + 1 (the first
integer an IEEE-754 double cannot represent) the serialised entry is
`num`, not `str`. -/
theorem claim_C9_cex :
    ("handle", JsonValue.num 9007199254740993) ∈
      serializeWin32Window
        { handle := 9007199254740993, class_name := "c", window_name := "w" } ∧
    JsonValue.isStr (JsonValue.num 9007199254740993) = false ∧
    (9007199254740993 : Nat) = 2 ^ 53 + 1 := by
  refine ⟨?_, rfl, by norm_num⟩
  simp [serializeWin32Window]

/-- C9 as amended: only the ADB screencap / input method bit-masks cross
the command surface as decimal strings (via `u64_as_string` on `AdbDevice`
and as `String` fields on `ControllerConfig::Adb`); `Win32Window.handle`
and the 64-bit fields of the `Win32` and `Gamepad` controller variants
cross as raw numbers. -/
theorem claim_C9_amended :
    (∀ d : AdbDevice,
       ("screencap_methods", JsonValue.str (toString d.screencap_methods)) ∈
         serializeAdbDevice d ∧
       ("input_methods", JsonValue.str (toString d.input_methods)) ∈
         serializeAdbDevice d) ∧
    (∀ p a sm im cfg,
       ("screencap_methods", JsonValue.str sm) ∈
         serializeControllerConfig (ControllerConfig.adb p a sm im cfg) ∧
       ("input_methods", JsonValue.str im) ∈
         serializeControllerConfig (ControllerConfig.adb p a sm im cfg)) ∧
    (∀ w : Win32Window, ("handle", JsonValue.num w.handle) ∈ serializeWin32Window w) ∧
    (∀ hnd sc mo kb : Nat,
       ("handle", JsonValue.num hnd) ∈
         serializeControllerConfig (ControllerConfig.win32 hnd sc mo kb) ∧
       ("screencap_method", JsonValue.num sc) ∈
         serializeControllerConfig (ControllerConfig.win32 hnd sc mo kb)) ∧
    (∀ hnd gt sc,
       ("handle", JsonValue.num hnd) ∈
         serializeControllerConfig (ControllerConfig.gamepad hnd gt sc)) := by
  refine ⟨?_, ?_, ?_, ?_, ?_⟩ <;>
    intros <;>
    simp [serializeAdbDevice, serializeWin32Window, serializeControllerConfig,
          u64_as_string]

/-- C10: on a registered instance `maa_get_connection_status` returns only
the `Connected` or `Disconnected` variant — `Disconnected` exactly when no
controller handle exists or the native connected-query reports false — and
never `Connecting` or `Failed`. -/
theorem claim_C10_connection_status (b : Bool) (instances : Instances)
    (id : String) (rt : InstanceRuntime) (h : lookupInst instances id = some rt) :
    ((maa_get_connection_status b instances id).1 =
       Except.ok ConnectionStatus.connected ∨
     (maa_get_connection_status b instances id).1 =
       Except.ok ConnectionStatus.disconnected) ∧
    ((maa_get_connection_status b instances id).1 =
       Except.ok ConnectionStatus.disconnected ↔
       (rt.controller = none ∨ b = false)) ∧
    (∀ reason, (maa_get_connection_status b instances id).1 ≠
       Except.ok (ConnectionStatus.failed reason)) ∧
    (maa_get_connection_status b instances id).1 ≠
       Except.ok ConnectionStatus.connecting := by
  cases hctrl : rt.controller <;> cases b <;>
    simp [maa_get_connection_status, h, hctrl]

/-- Witness for C10: instance "x" with controller 2 and a true native
connected-query yields `Connected` (and the other conjuncts at that input). -/
theorem claim_C10_connection_status_witness :
    ((maa_get_connection_status true [("x", rtReady)] "x").1 =
       Except.ok ConnectionStatus.connected ∨
     (maa_get_connection_status true [("x", rtReady)] "x").1 =
       Except.ok ConnectionStatus.disconnected) ∧
    ((maa_get_connection_status true [("x", rtReady)] "x").1 =
       Except.ok ConnectionStatus.disconnected ↔
       (rtReady.controller = none ∨ true = false)) ∧
    (∀ reason, (maa_get_connection_status true [("x", rtReady)] "x").1 ≠
       Except.ok (ConnectionStatus.failed reason)) ∧
    (maa_get_connection_status true [("x", rtReady)] "x").1 ≠
       Except.ok ConnectionStatus.connecting :=
  claim_C10_connection_status true [("x", rtReady)] "x" rtReady rfl

end MXU
